import Mathlib

/-!
Shallow embedding of the `tdf_writer` concurrency core
(`sync_buffer.hpp`, `sync_bouded_container.hpp`, `ordered_queue.hpp`).

Each C++ class becomes a Lean structure holding the fields the class
protects under its mutex; each blocking method becomes a function on that
state whose result distinguishes a normal return, a thrown error, and a
call that never returns because its condition-variable predicate can never
become true with no other thread running (`blocked`).  Machine integers
(`size_t`) are modelled as `Nat`; the repository only ever moves them
upward by `+1`, far from any overflow.  Payload types are kept as a type
parameter `τ` (instantiated at `Nat` in concrete evaluations, matching the
repository's own `int` test instantiations).
-/

/-- Error kinds thrown by the core (`std::invalid_argument` and the two
`std::runtime_error` messages "Push to a closed container" /
"Cannot add input to closed dispatcher"). -/
inductive PipeError where
  | pushAfterClose
  | submitAfterClose
  | invalidArgument
  deriving DecidableEq, Repr

/-- Result of one call to a blocking push-style method: normal return with
the new state, a synchronously thrown error (the state it leaves behind is
carried explicitly, to state frame properties), or a call whose wait
predicate is false and can never change with no other thread running. -/
inductive PushResult (σ : Type) where
  | ok (s : σ)
  | err (e : PipeError) (s : σ)
  | blocked
  deriving DecidableEq, Repr

/-- Result of one call to a blocking pop-style method: an element together
with the new state, end-of-stream (`std::nullopt`), a fatal failed
`assert`, or a wait that can never finish with no other thread running. -/
inductive PopResult (σ α : Type) where
  | yield (s : σ) (v : α)
  | eos
  | fatal
  | blocked
  deriving DecidableEq, Repr

/-- `SynchronizedBuffer<T>` (the header-guarded, `SyncBoundedContainer`
based variant that `dispatcher.hpp` compiles against): a `std::deque<T>`
buffer, the base class's `finished` flag, and `max_size`. -/
structure SynchronizedBuffer (α : Type) where
  buffer : List α
  finished : Bool
  max_size : Nat
  deriving DecidableEq, Repr

/-- `container_can_accept`: `buffer.size() < max_size` (the element
argument is ignored, as in the source). -/
def SynchronizedBuffer.container_can_accept (s : SynchronizedBuffer α) (_ : α) : Bool :=
  s.buffer.length < s.max_size

/-- `container_can_yield`: `!buffer.empty()`. -/
def SynchronizedBuffer.container_can_yield (s : SynchronizedBuffer α) : Bool :=
  !s.buffer.isEmpty

/-- `container_is_empty`: `buffer.empty()`. -/
def SynchronizedBuffer.container_is_empty (s : SynchronizedBuffer α) : Bool :=
  s.buffer.isEmpty

/-- `SyncBoundedContainer::push` instantiated at the FIFO:
wait until `container_can_accept(item) || finished`; then if `finished`
throw "Push to a closed container"; else `insert_into_container`
(`buffer.push_back`). -/
def SynchronizedBuffer.push (s : SynchronizedBuffer α) (item : α) :
    PushResult (SynchronizedBuffer α) :=
  if s.container_can_accept item || s.finished then
    if s.finished then .err .pushAfterClose s
    else .ok { s with buffer := s.buffer ++ [item] }
  else .blocked

/-- `SyncBoundedContainer::pop` instantiated at the FIFO:
wait until `container_can_yield() || finished`; if `finished` and
`container_is_empty()` return `std::nullopt`; else `remove_from_container`
(pop the deque's front). -/
def SynchronizedBuffer.pop (s : SynchronizedBuffer α) :
    PopResult (SynchronizedBuffer α) α :=
  if s.container_can_yield || s.finished then
    if s.finished && s.container_is_empty then .eos
    else
      match s.buffer with
      | [] => .eos
      | x :: rest => .yield { s with buffer := rest } x
  else .blocked

/-- `SyncBoundedContainer::close`: set `finished`, notify both condition
variables, return.  It does not wait for the buffer to drain. -/
def SynchronizedBuffer.close (s : SynchronizedBuffer α) : SynchronizedBuffer α :=
  { s with finished := true }

/-- `close` of the standalone (non header-guarded) `SynchronizedBuffer`
variant: sets `closed`, notifies, then waits on
`cv.wait(lock, buffer.empty())`.  With no concurrent popper the call
returns only when the buffer is already empty; `none` models a call that
never completes. -/
def SynchronizedBuffer.closeV1 (s : SynchronizedBuffer α) :
    Option (SynchronizedBuffer α) :=
  if s.buffer.isEmpty then some { s with finished := true } else none

/-- Constructor of the container-based `SynchronizedBuffer` variant:
stores `max_size` with no validity check. -/
def synchronizedBufferInit (α : Type) (max_size : Nat) : SynchronizedBuffer α :=
  { buffer := [], finished := false, max_size := max_size }

/-- Constructor of the standalone `SynchronizedBuffer` variant: throws
`std::invalid_argument` when `max_size == 0`. -/
def synchronizedBufferInitV1 (α : Type) (max_size : Nat) :
    Except PipeError (SynchronizedBuffer α) :=
  if max_size = 0 then .error .invalidArgument
  else .ok { buffer := [], finished := false, max_size := max_size }

/-- Insertion into `std::priority_queue` with the min-by-`index`
comparator, modelled as insertion into the index-sorted list of stored
`(index, value)` pairs; the list head plays `pq.top()`. -/
def insertByIdx (x : Nat × τ) : List (Nat × τ) → List (Nat × τ)
  | [] => [x]
  | y :: ys => if x.1 ≤ y.1 then x :: y :: ys else y :: insertByIdx x ys

/-- `SyncBoundedPriorityQueue<T>`: the priority queue `pq` of
`QueueElement`s (here index-sorted list, head = minimum), `next_index`,
the base class's `finished` flag, and `max_size` (defaulted in the source
to `std::numeric_limits<size_t>::max()`). -/
structure SyncBoundedPriorityQueue (τ : Type) where
  pq : List (Nat × τ)
  next_index : Nat
  finished : Bool
  max_size : Nat
  deriving DecidableEq, Repr

/-- `std::numeric_limits<size_t>::max()` on a 64-bit platform, the
source's default `max_size` for `SyncBoundedPriorityQueue`. -/
def SIZE_MAX : Nat := 2 ^ 64 - 1

/-- `container_can_accept`:
`pq.size() < max_size || item.first < pq.top().first`; with an empty heap
the short-circuited second disjunct is never reached. -/
def SyncBoundedPriorityQueue.container_can_accept
    (s : SyncBoundedPriorityQueue τ) (item : Nat × τ) : Bool :=
  s.pq.length < s.max_size ||
    (match s.pq.head? with
     | some top => item.1 < top.1
     | none => false)

/-- `container_can_yield`: `!pq.empty() && pq.top().first == next_index`. -/
def SyncBoundedPriorityQueue.container_can_yield
    (s : SyncBoundedPriorityQueue τ) : Bool :=
  match s.pq.head? with
  | some top => top.1 == s.next_index
  | none => false

/-- `container_is_empty`: `pq.empty()`. -/
def SyncBoundedPriorityQueue.container_is_empty
    (s : SyncBoundedPriorityQueue τ) : Bool :=
  s.pq.isEmpty

/-- `SyncBoundedContainer::push` instantiated at the priority queue. -/
def SyncBoundedPriorityQueue.push (s : SyncBoundedPriorityQueue τ)
    (item : Nat × τ) : PushResult (SyncBoundedPriorityQueue τ) :=
  if s.container_can_accept item || s.finished then
    if s.finished then .err .pushAfterClose s
    else .ok { s with pq := insertByIdx item s.pq }
  else .blocked

/-- `SyncBoundedContainer::pop` instantiated at the priority queue.
`remove_from_container` pops `pq.top()` and runs
`assert(elem.index == next_index)`; a failed assert is the `fatal`
outcome (the process aborts). -/
def SyncBoundedPriorityQueue.pop (s : SyncBoundedPriorityQueue τ) :
    PopResult (SyncBoundedPriorityQueue τ) (Nat × τ) :=
  if s.container_can_yield || s.finished then
    if s.finished && s.container_is_empty then .eos
    else
      match s.pq with
      | [] => .eos
      | top :: rest =>
        if top.1 = s.next_index then
          .yield { s with pq := rest, next_index := s.next_index + 1 } top
        else .fatal
  else .blocked

/-- `SyncBoundedContainer::close` at the priority queue: set `finished`,
notify, return immediately. -/
def SyncBoundedPriorityQueue.close (s : SyncBoundedPriorityQueue τ) :
    SyncBoundedPriorityQueue τ :=
  { s with finished := true }

/-- `SyncBoundedPriorityQueue` constructor with its default `max_size`. -/
def syncBoundedPriorityQueueInit (τ : Type) : SyncBoundedPriorityQueue τ :=
  { pq := [], next_index := 0, finished := false, max_size := SIZE_MAX }

/-- `OrderedQueue<T>` (`ordered_queue.hpp`): priority queue of
`(index, item)` pairs (index-sorted list, head = `pq.top()`),
`next_index`, `finished`. -/
structure OrderedQueue (τ : Type) where
  pq : List (Nat × τ)
  next_index : Nat
  finished : Bool
  deriving DecidableEq, Repr

/-- `OrderedQueue::push(idx, item)`: takes the lock, `pq.emplace(...)`,
notifies.  There is no capacity bound, no wait, and no check of the
`finished` flag: the call always succeeds, also after `close()`. -/
def OrderedQueue.push (s : OrderedQueue τ) (idx : Nat) (item : τ) :
    OrderedQueue τ :=
  { s with pq := insertByIdx (idx, item) s.pq }

/-- `OrderedQueue::pop`: wait until
`(!pq.empty() && pq.top().first == next_index) || finished`; if `finished`
and `pq.empty()` return `std::nullopt`; else pop the top, `++next_index`,
and return the top's value.  There is no assert comparing the popped index
with `next_index`. -/
def OrderedQueue.pop (s : OrderedQueue τ) : PopResult (OrderedQueue τ) τ :=
  if (match s.pq.head? with
      | some top => top.1 == s.next_index
      | none => false) || s.finished then
    if s.finished && s.pq.isEmpty then .eos
    else
      match s.pq with
      | [] => .eos
      | top :: rest =>
        .yield { s with pq := rest, next_index := s.next_index + 1 } top.2
  else .blocked

/-- `OrderedQueue::close`: sets `finished`, notifies all, then waits on
`cv.wait(lock, pq.empty())`.  With no concurrent popper the call returns
only when the queue is already empty; `none` models a call that never
completes. -/
def OrderedQueue.close (s : OrderedQueue τ) : Option (OrderedQueue τ) :=
  if s.pq.isEmpty then some { s with finished := true } else none

/-- `OrderedQueue::~OrderedQueue() { close(); }`. -/
def OrderedQueue.dtor (s : OrderedQueue τ) : Option (OrderedQueue τ) :=
  s.close

/-- `Dispatcher` state: the FIFO `input_buffer` of
`std::pair<size_t, InputType>`, the `intermediate_queue`, and
`next_job_index`.  `InputType` is fixed to `Nat`, matching the
repository's `int` instantiations (the stored-pair conversion in
`add_input` only compiles for an `InputType` interconvertible with
`size_t`). -/
structure Dispatcher (τ : Type) where
  input_buffer : SynchronizedBuffer (Nat × Nat)
  intermediate_queue : SyncBoundedPriorityQueue τ
  next_job_index : Nat
  deriving DecidableEq, Repr

/-- `Dispatcher` constructor argument validation, in source order: the
member initializers run first (`input_buffer(input_buffer_size)` — the
container-based buffer constructor performs no zero check), then the body
throws `std::invalid_argument` for a null mapper, a null reducer, or
`num_mapper_threads == 0`.  `input_buffer_size` is never validated. -/
def dispatcherInit (τ : Type) (mapper_is_null reducer_is_null : Bool)
    (input_buffer_size num_mapper_threads : Nat) :
    Except PipeError (Dispatcher τ) :=
  let st : Dispatcher τ :=
    { input_buffer := synchronizedBufferInit (Nat × Nat) input_buffer_size,
      intermediate_queue := syncBoundedPriorityQueueInit τ,
      next_job_index := 0 }
  if mapper_is_null then .error .invalidArgument
  else if reducer_is_null then .error .invalidArgument
  else if num_mapper_threads = 0 then .error .invalidArgument
  else .ok st

/-- `Dispatcher::add_input(input)`: throw if `input_buffer.is_closed()`;
otherwise `input_buffer.push(std::make_pair(input, next_job_index++))`.
The buffer stores `std::pair<size_t, InputType>`, so the argument pair
`(input, index)` is converted component-wise: the stored FIRST component
is the input value and the SECOND is the job index — exactly as the
source writes it. -/
def Dispatcher.add_input (s : Dispatcher τ) (input : Nat) :
    PushResult (Dispatcher τ) :=
  if s.input_buffer.finished then .err .submitAfterClose s
  else
    match s.input_buffer.push (input, s.next_job_index) with
    | .ok b => .ok { s with input_buffer := b,
                            next_job_index := s.next_job_index + 1 }
    | .err e _ => .err e s
    | .blocked => .blocked

/-- The mapper-worker loop body (one worker, run to FIFO end-of-stream):
`pop` the FIFO; on a value destructure it as `[idx, input]`, compute
`mapper->map(input)` and push `{idx, intermediate}` to the intermediate
queue; on `std::nullopt` exit.  `fuel` bounds the recursion; it is chosen
larger than the FIFO contents at every call site. -/
def mapperWorkerLoop (map : Nat → τ) :
    Nat → SynchronizedBuffer (Nat × Nat) → SyncBoundedPriorityQueue τ →
    SynchronizedBuffer (Nat × Nat) × SyncBoundedPriorityQueue τ
  | 0, fifo, q => (fifo, q)
  | fuel + 1, fifo, q =>
    match fifo.pop with
    | .yield fifo2 item =>
      match q.push (item.1, map item.2) with
      | .ok q2 => mapperWorkerLoop map fuel fifo2 q2
      | _ => (fifo2, q)
    | _ => (fifo, q)

/-- The reducer-worker loop body: `pop` the intermediate queue; on a value
call `reducer->reduce(item.second)` (modelled by appending the value to
the observation list); on `std::nullopt` exit; a failed assert aborts the
process (flag `true`). -/
def reducerWorkerLoop :
    Nat → SyncBoundedPriorityQueue τ → List τ →
    SyncBoundedPriorityQueue τ × List τ × Bool
  | 0, q, acc => (q, acc, false)
  | fuel + 1, q, acc =>
    match q.pop with
    | .yield q2 item => reducerWorkerLoop fuel q2 (acc ++ [item.2])
    | .fatal => (q, acc, true)
    | _ => (q, acc, false)

/-- `Dispatcher::close()` under the dispatcher's own schedule with one
mapper worker that runs at join time: close the FIFO, drain it through
the mapper worker, close the intermediate queue, drain it through the
reducer worker.  Returns the values the reducer observed and whether the
ordered queue's assert aborted the process. -/
def Dispatcher.close (map : Nat → τ) (s : Dispatcher τ) : List τ × Bool :=
  let fifo := s.input_buffer.close
  let wq := mapperWorkerLoop map (fifo.buffer.length + 1) fifo s.intermediate_queue
  let q := wq.2.close
  let r := reducerWorkerLoop (q.pq.length + 1) q []
  (r.2.1, r.2.2)

/-- One full run of the pipeline (W = 1, the deterministic interleaving in
which all submissions happen first and the worker threads drain their
queues during `close`): construct the dispatcher with a FIFO of capacity
`c_in`, `add_input` every element of `inputs`, then `close`. -/
def runPipeline (map : Nat → τ) (inputs : List Nat) (c_in : Nat) :
    List τ × Bool :=
  let s0 : Dispatcher τ :=
    { input_buffer := synchronizedBufferInit (Nat × Nat) c_in,
      intermediate_queue := syncBoundedPriorityQueueInit τ,
      next_job_index := 0 }
  let s1 := inputs.foldl
    (fun s i => match s.add_input i with | .ok s2 => s2 | _ => s) s0
  s1.close map

/-- Well-formedness of the priority-queue model: the stored list is sorted
by index, so its head is the element `pq.top()` would return.  It holds
initially and is preserved by `push` and `pop` (lemmas below), so it holds
in every reachable state. -/
def SyncBoundedPriorityQueue.wf (s : SyncBoundedPriorityQueue τ) : Prop :=
  List.Pairwise (fun a b : Nat × τ => a.1 ≤ b.1) s.pq

theorem insertByIdx_length (x : Nat × τ) (l : List (Nat × τ)) :
    (insertByIdx x l).length = l.length + 1 := by
  induction l with
  | nil => rfl
  | cons y ys ih =>
    unfold insertByIdx
    split
    · rfl
    · simp only [List.length_cons, ih]

theorem mem_insertByIdx {z x : Nat × τ} {l : List (Nat × τ)} :
    z ∈ insertByIdx x l ↔ z = x ∨ z ∈ l := by
  induction l with
  | nil => simp [insertByIdx]
  | cons y ys ih =>
    unfold insertByIdx
    split
    · simp [List.mem_cons]
    · simp [List.mem_cons, ih]
      tauto

theorem pairwise_insertByIdx {x : Nat × τ} {l : List (Nat × τ)}
    (h : List.Pairwise (fun a b : Nat × τ => a.1 ≤ b.1) l) :
    List.Pairwise (fun a b : Nat × τ => a.1 ≤ b.1) (insertByIdx x l) := by
  induction l with
  | nil => simp [insertByIdx]
  | cons y ys ih =>
    rw [List.pairwise_cons] at h
    obtain ⟨hy, hys⟩ := h
    unfold insertByIdx
    split
    · rename_i hxy
      rw [List.pairwise_cons]
      refine ⟨?_, ?_⟩
      · intro b hb
        rcases List.mem_cons.mp hb with rfl | hb2
        · exact hxy
        · exact le_trans hxy (hy b hb2)
      · rw [List.pairwise_cons]
        exact ⟨hy, hys⟩
    · rename_i hxy
      rw [List.pairwise_cons]
      refine ⟨?_, ih hys⟩
      intro b hb
      rcases mem_insertByIdx.mp hb with rfl | hb2
      · exact le_of_not_le hxy
      · exact hy b hb2

theorem sbpq_init_wf (τ : Type) : (syncBoundedPriorityQueueInit τ).wf := by
  unfold SyncBoundedPriorityQueue.wf syncBoundedPriorityQueueInit
  simp

theorem sbpq_push_wf {s s' : SyncBoundedPriorityQueue τ} {it : Nat × τ}
    (hwf : s.wf) (h : s.push it = .ok s') : s'.wf := by
  unfold SyncBoundedPriorityQueue.push at h
  split at h
  · split at h
    · exact absurd h (by simp)
    · injection h with h1
      subst h1
      unfold SyncBoundedPriorityQueue.wf at hwf ⊢
      exact pairwise_insertByIdx hwf
  · exact absurd h (by simp)

theorem sbpq_pop_wf {s s' : SyncBoundedPriorityQueue τ} {v : Nat × τ}
    (hwf : s.wf) (h : s.pop = .yield s' v) : s'.wf := by
  unfold SyncBoundedPriorityQueue.pop at h
  split at h
  · split at h
    · exact absurd h (by simp)
    · split at h
      · exact absurd h (by simp)
      · rename_i top rest heq
        split at h
        · injection h with h1 h2
          subst h1
          unfold SyncBoundedPriorityQueue.wf at hwf ⊢
          rw [heq] at hwf
          exact hwf.of_cons
        · exact absurd h (by simp)
  · exact absurd h (by simp)

/-- The repository's own test shape (inputs equal to their submission
positions): the swapped pair components are indistinguishable, the
pipeline delivers every mapped value in order and the assert never
fires — this is why the bug below goes unnoticed by the bundled tests. -/
theorem runPipeline_on_identity_stream :
    runPipeline (fun x => x) [0, 1, 2] 4 = ([0, 1, 2], false) := by decide

/-- C1: refuted — `add_input` stores `make_pair(input, next_job_index++)`
in the `pair<size_t, InputType>` FIFO, i.e. the components swapped, so the
mapper worker reads the input value as the sequence index and the index as
the input.  On the submission stream `[5]` (W = 1, `C_in` = 2, mapper =
identity) the worker computes `map 0` and tags it with index `5`; during
`close` the ordered queue's `assert(elem.index == next_index)` fails
(`5 ≠ 0`) and the reducer is invoked zero times instead of once on
`map 5`. -/
theorem claim_C1_eval :
    runPipeline (fun x => x) [5] 2 = ([], true) ∧
    List.map (fun x => x) [5] ≠ ([] : List Nat) := by decide

/-- C2: refuted — the first `add_input` with input value `7` stores the
pair `(7, 0)`: the input occupies the first (index) slot that the mapper
workers destructure as `idx`, and the sequence index `0` lands in the
second slot.  The next-index counter does advance by 1. -/
theorem claim_C2_eval :
    Dispatcher.add_input
      ({ input_buffer := synchronizedBufferInit (Nat × Nat) 2,
         intermediate_queue := syncBoundedPriorityQueueInit Nat,
         next_job_index := 0 } : Dispatcher Nat) 7 =
      .ok { input_buffer := { buffer := [(7, 0)], finished := false, max_size := 2 },
            intermediate_queue := syncBoundedPriorityQueueInit Nat,
            next_job_index := 1 } ∧
    ((7, 0) : Nat × Nat).1 ≠ 0 := by decide

/-- C3 counterexample: on the `OrderedQueue` variant, after `close()` with
the pair `(5, 9)` still buffered and next-expected counter `k = 0`, `pop`
succeeds and removes the element of index `5 ≠ k = 0` with no assertion:
the claim's "index equals k at the moment of removal (asserted)" fails in
this reachable closed state. -/
theorem claim_C3_counterexample :
    OrderedQueue.pop (⟨[(5, 9)], 0, true⟩ : OrderedQueue Nat) =
      .yield ⟨[], 1, true⟩ 9 ∧ (5 : Nat) ≠ 0 := by decide

/-- C3 (amended): for the dispatcher's ordered queue
(`SyncBoundedPriorityQueue`), in every sorted state — including after
`close` with items buffered — a successful pop removes and returns the
minimal-index stored pair, its index equals `next_index` at the moment of
removal, and `next_index` increments by exactly 1; and whenever the
minimum differs from `next_index` in a state where the wait is released
(after close), the pop is the fatal failed assert instead of a success. -/
theorem claim_C3_theorem :
    (∀ (s s' : SyncBoundedPriorityQueue Nat) (n v : Nat),
        s.wf →
        s.pop = .yield s' (n, v) →
        n = s.next_index ∧ s'.next_index = s.next_index + 1 ∧
        s.pq = (n, v) :: s'.pq ∧ ∀ p ∈ s.pq, n ≤ p.1) ∧
    (∀ (s : SyncBoundedPriorityQueue Nat) (a : Nat × Nat)
        (rest : List (Nat × Nat)),
        s.finished = true → s.pq = a :: rest → a.1 ≠ s.next_index →
        s.pop = .fatal) := by
  constructor
  · intro s s' n v hsort hpop
    unfold SyncBoundedPriorityQueue.pop at hpop
    split at hpop
    · split at hpop
      · exact absurd hpop (by simp)
      · split at hpop
        · exact absurd hpop (by simp)
        · rename_i top rest heq
          split at hpop
          · rename_i htop
            injection hpop with h1 h2
            subst h2
            have hpq' : s'.pq = rest := by rw [← h1]
            have hnext' : s'.next_index = s.next_index + 1 := by rw [← h1]
            refine ⟨htop, hnext', by rw [heq, hpq'], ?_⟩
            intro p hp
            unfold SyncBoundedPriorityQueue.wf at hsort
            rw [heq] at hp hsort
            rcases List.mem_cons.mp hp with rfl | hp2
            · exact le_refl _
            · exact (List.pairwise_cons.mp hsort).1 p hp2
          · exact absurd hpop (by simp)
    · exact absurd hpop (by simp)
  · intro s a rest hfin hpq hne
    unfold SyncBoundedPriorityQueue.pop
    rw [hfin]
    simp only [Bool.or_true, if_true]
    unfold SyncBoundedPriorityQueue.container_is_empty
    rw [hpq]
    simp [hne]

/-- Witness for the C3 amended theorem at a concrete sorted two-element
state. -/
theorem claim_C3_witness :
    0 = (⟨[(0, 42), (1, 7)], 0, false, 3⟩ : SyncBoundedPriorityQueue Nat).next_index ∧
    (⟨[(1, 7)], 1, false, 3⟩ : SyncBoundedPriorityQueue Nat).next_index =
      (⟨[(0, 42), (1, 7)], 0, false, 3⟩ : SyncBoundedPriorityQueue Nat).next_index + 1 ∧
    (⟨[(0, 42), (1, 7)], 0, false, 3⟩ : SyncBoundedPriorityQueue Nat).pq =
      (0, 42) :: (⟨[(1, 7)], 1, false, 3⟩ : SyncBoundedPriorityQueue Nat).pq ∧
    ∀ p ∈ (⟨[(0, 42), (1, 7)], 0, false, 3⟩ : SyncBoundedPriorityQueue Nat).pq,
      0 ≤ p.1 :=
  claim_C3_theorem.1 ⟨[(0, 42), (1, 7)], 0, false, 3⟩ ⟨[(1, 7)], 1, false, 3⟩
    0 42 (by unfold SyncBoundedPriorityQueue.wf; decide) (by decide)

/-- C4 counterexample: `OrderedQueue::push` performs no closed-flag check:
on a closed empty `OrderedQueue`, `push 0 3` succeeds and inserts the
item, reporting no error to the caller and changing the contents. -/
theorem claim_C4_counterexample :
    OrderedQueue.push (⟨[], 0, true⟩ : OrderedQueue Nat) 0 3 =
      ⟨[(0, 3)], 0, true⟩ ∧
    (⟨[(0, 3)], 0, true⟩ : OrderedQueue Nat).pq ≠
      (⟨[], 0, true⟩ : OrderedQueue Nat).pq := by decide

/-- C4 (amended): on the `SyncBoundedContainer`-based containers — the
dispatcher's FIFO and its bounded priority queue — every push in a closed
state fails synchronously with the push-after-close error and leaves the
container contents unchanged (the error carries the untouched state);
the `OrderedQueue` variant's push never consults the closed flag and
always inserts. -/
theorem claim_C4_theorem :
    (∀ (s : SynchronizedBuffer Nat) (x : Nat),
        s.finished = true → s.push x = .err .pushAfterClose s) ∧
    (∀ (s : SyncBoundedPriorityQueue Nat) (it : Nat × Nat),
        s.finished = true → s.push it = .err .pushAfterClose s) ∧
    (∀ (s : OrderedQueue Nat) (idx v : Nat),
        (s.push idx v).pq = insertByIdx (idx, v) s.pq) := by
  refine ⟨?_, ?_, ?_⟩
  · intro s x h
    simp [SynchronizedBuffer.push, h]
  · intro s it h
    simp [SyncBoundedPriorityQueue.push, h]
  · intro s idx v
    rfl

/-- Witness for the C4 amended theorem: pushing `7` into a closed FIFO of
capacity 3 fails with the push-after-close error and keeps the state. -/
theorem claim_C4_witness :
    (⟨[], true, 3⟩ : SynchronizedBuffer Nat).push 7 =
      .err .pushAfterClose ⟨[], true, 3⟩ :=
  claim_C4_theorem.1 ⟨[], true, 3⟩ 7 rfl

/-- C5 counterexample: with `C_out = 1`, three consecutive pushes with
strictly decreasing indices `5, 4, 3` are all admitted (the third via the
small-index override from an already-overfull state), reaching a queue of
3 items — more than `C_out + 1 = 2`. -/
theorem claim_C5_counterexample :
    (⟨[], 0, false, 1⟩ : SyncBoundedPriorityQueue Nat).push (5, 0) =
      .ok ⟨[(5, 0)], 0, false, 1⟩ ∧
    (⟨[(5, 0)], 0, false, 1⟩ : SyncBoundedPriorityQueue Nat).push (4, 0) =
      .ok ⟨[(4, 0), (5, 0)], 0, false, 1⟩ ∧
    (⟨[(4, 0), (5, 0)], 0, false, 1⟩ : SyncBoundedPriorityQueue Nat).push (3, 0) =
      .ok ⟨[(3, 0), (4, 0), (5, 0)], 0, false, 1⟩ ∧
    ¬ ([(3, 0), (4, 0), (5, 0)] : List (Nat × Nat)).length ≤ 1 + 1 := by decide

/-- C5 (amended): the FIFO bound holds unconditionally — a successful push
leaves at most `C_in` items — and for the ordered queue a single push from
a state within capacity leaves at most `C_out + 1` items; but the global
bound `C_out + 1` is not an invariant, because consecutive small-index
override pushes can each add one more item (counterexample above). -/
theorem claim_C5_theorem :
    (∀ (s s' : SynchronizedBuffer Nat) (x : Nat),
        s.push x = .ok s' → s'.buffer.length ≤ s.max_size) ∧
    (∀ (s s' : SyncBoundedPriorityQueue Nat) (it : Nat × Nat),
        s.pq.length ≤ s.max_size → s.push it = .ok s' →
        s'.pq.length ≤ s.max_size + 1) := by
  constructor
  · intro s s' x h
    unfold SynchronizedBuffer.push at h
    split at h
    · rename_i hcond
      split at h
      · exact absurd h (by simp)
      · rename_i hfin
        injection h with h1
        rw [Bool.not_eq_true] at hfin
        rw [hfin, Bool.or_false] at hcond
        unfold SynchronizedBuffer.container_can_accept at hcond
        rw [decide_eq_true_eq] at hcond
        rw [← h1]
        simp only [List.length_append, List.length_cons, List.length_nil]
        omega
    · exact absurd h (by simp)
  · intro s s' it hlen h
    unfold SyncBoundedPriorityQueue.push at h
    split at h
    · split at h
      · exact absurd h (by simp)
      · injection h with h1
        rw [← h1]
        simp only [insertByIdx_length]
        omega
    · exact absurd h (by simp)

/-- Witness for the C5 amended theorem: one override push from a full
queue of capacity 1 yields 2 = `C_out + 1` items. -/
theorem claim_C5_witness :
    (⟨[(4, 0), (5, 0)], 0, false, 1⟩ : SyncBoundedPriorityQueue Nat).pq.length ≤
      1 + 1 :=
  claim_C5_theorem.2 ⟨[(5, 0)], 0, false, 1⟩ ⟨[(4, 0), (5, 0)], 0, false, 1⟩
    (4, 0) (by decide) (by decide)

/-- C6: `add_input` on a dispatcher whose FIFO is closed throws the
submit-after-close error synchronously before evaluating
`next_job_index++`, so the dispatcher state — in particular the next-index
counter — is returned unchanged (the error carries the untouched state). -/
theorem claim_C6_theorem :
    ∀ (s : Dispatcher Nat) (i : Nat),
      s.input_buffer.finished = true →
      s.add_input i = .err .submitAfterClose s := by
  intro s i h
  simp [Dispatcher.add_input, h]

/-- Witness for C6 at a concrete closed dispatcher. -/
theorem claim_C6_witness :
    Dispatcher.add_input
      ({ input_buffer := ⟨[], true, 2⟩,
         intermediate_queue := syncBoundedPriorityQueueInit Nat,
         next_job_index := 4 } : Dispatcher Nat) 9 =
      .err .submitAfterClose
        { input_buffer := ⟨[], true, 2⟩,
          intermediate_queue := syncBoundedPriorityQueueInit Nat,
          next_job_index := 4 } :=
  claim_C6_theorem _ 9 rfl

/-- C7: `SyncBoundedContainer::close` — the close the dispatcher's FIFO
inherits — is a total state update: it sets the closed flag and changes
nothing else; every buffered item and the capacity survive, and the call
returns without any wait on emptiness (the model function is defined on
every state, non-empty buffers included). -/
theorem claim_C7_theorem :
    ∀ (s : SynchronizedBuffer Nat),
      s.close.finished = true ∧ s.close.buffer = s.buffer ∧
      s.close.max_size = s.max_size :=
  fun _ => ⟨rfl, rfl, rfl⟩

/-- C8: refuted on the zero-buffer case — the dispatcher constructor
validates the mapper, the reducer, and `num_mapper_threads`, but
`input_buffer_size` is forwarded unchecked to the container-based
`SynchronizedBuffer` constructor, so construction with
`input_buffer_size = 0` raises no error; the resulting FIFO can never
accept an item, so the first submit would block forever.  The standalone
buffer variant's constructor does throw `std::invalid_argument` on 0,
which is the spec's stated intent. -/
theorem claim_C8_eval :
    dispatcherInit Nat false false 0 1 =
      .ok { input_buffer := synchronizedBufferInit (Nat × Nat) 0,
            intermediate_queue := syncBoundedPriorityQueueInit Nat,
            next_job_index := 0 } ∧
    (∀ x : Nat × Nat, (synchronizedBufferInit (Nat × Nat) 0).push x = .blocked) ∧
    synchronizedBufferInitV1 (Nat × Nat) 0 = .error .invalidArgument :=
  ⟨rfl, fun _ => rfl, rfl⟩

/-- C9: in every state of the bounded priority queue with a non-empty heap
and closed flag unset, a push whose index `n` is smaller than every stored
index — in particular a stale `n` below `next_index`, i.e. an index
already delivered — is admitted by `container_can_accept`'s small-index
override regardless of capacity, becomes the new top, and once the queue
is closed the next pop hits the failed `assert(elem.index == next_index)`:
the fatal abort is reachable through the public push/pop interface. -/
theorem claim_C9_theorem :
    ∀ (s : SyncBoundedPriorityQueue Nat) (n v : Nat),
      s.finished = false → s.pq ≠ [] →
      (∀ p ∈ s.pq, n < p.1) → n < s.next_index →
      ∃ s', s.push (n, v) = .ok s' ∧ s'.pq = (n, v) :: s.pq ∧
        s'.close.pop = .fatal := by
  intro s n v hfin hne hall hlt
  obtain ⟨a, t, hpq⟩ := List.exists_cons_of_ne_nil hne
  have ha : n < a.1 := hall a (by rw [hpq]; exact List.mem_cons_self a t)
  have hacc : s.container_can_accept (n, v) = true := by
    unfold SyncBoundedPriorityQueue.container_can_accept
    rw [hpq]
    simp [ha]
  have hins : insertByIdx (n, v) s.pq = (n, v) :: s.pq := by
    rw [hpq]
    unfold insertByIdx
    simp [Nat.le_of_lt ha]
  refine ⟨{ s with pq := (n, v) :: s.pq }, ?_, rfl, ?_⟩
  · unfold SyncBoundedPriorityQueue.push
    rw [hacc, hfin]
    simp [hins]
  · unfold SyncBoundedPriorityQueue.close SyncBoundedPriorityQueue.pop
    simp only
    unfold SyncBoundedPriorityQueue.container_is_empty
    simp [Nat.ne_of_lt hlt]

/-- Witness for C9: a full queue (capacity 1) holding `(2, 9)` with
`next_index = 1` admits the stale push `(0, 5)` and the subsequent pop
after close is the fatal assert. -/
theorem claim_C9_witness :
    ∃ s', (⟨[(2, 9)], 1, false, 1⟩ : SyncBoundedPriorityQueue Nat).push (0, 5) =
        .ok s' ∧
      s'.pq = (0, 5) :: (⟨[(2, 9)], 1, false, 1⟩ : SyncBoundedPriorityQueue Nat).pq ∧
      s'.close.pop = .fatal :=
  claim_C9_theorem ⟨[(2, 9)], 1, false, 1⟩ 0 5 rfl (by decide) (by decide)
    (by decide)

/-- C10: the `OrderedQueue` destructor is exactly a call to `close()`;
`close` sets the finished flag and then waits for the internal priority
queue to empty, so with no concurrent popper a close (hence a destructor)
on a non-empty queue never completes, and on an empty queue it completes
having only set the flag. -/
theorem claim_C10_theorem :
    (∀ (s : OrderedQueue Nat), s.dtor = s.close) ∧
    (∀ (s : OrderedQueue Nat), s.pq ≠ [] → s.close = none) ∧
    (∀ (s : OrderedQueue Nat), s.pq = [] →
      s.close = some { s with finished := true }) := by
  refine ⟨fun _ => rfl, ?_, ?_⟩
  · intro s h
    obtain ⟨a, t, hpq⟩ := List.exists_cons_of_ne_nil h
    unfold OrderedQueue.close
    rw [hpq]
    rfl
  · intro s h
    unfold OrderedQueue.close
    rw [h]
    rfl

/-- Witness for C10: closing (destroying) a queue still holding `(0, 7)`
does not complete. -/
theorem claim_C10_witness :
    (⟨[(0, 7)], 0, false⟩ : OrderedQueue Nat).close = none :=
  claim_C10_theorem.2.1 ⟨[(0, 7)], 0, false⟩ (by decide)
